import Mathlib

/-!
Shallow embedding of `gpjax/likelihoods.py` (module `gpjax.likelihoods`).

Arrays of shape `[N]` (one column, `D = 1`) are modelled as functions
`Fin n → ℝ`; covariance matrices as `Matrix (Fin n) (Fin n) ℝ`.  The
distribution objects returned by the likelihoods (`tfd.Normal`,
`tfd.MultivariateNormalFullCovariance`, `tfd.Bernoulli`, `tfd.Poisson`)
are modelled by their parameters, the way the module constructs them.
The error function `jax.scipy.special.erf` is modelled by its
mathematical definition.
-/

namespace GPJax

open MeasureTheory intervalIntegral

/-- The Gauss error function, the mathematical function computed by
`jax.scipy.special.erf` that `inv_probit` calls. -/
noncomputable def erf (x : ℝ) : ℝ :=
  (2 / Real.sqrt Real.pi) * ∫ t in (0:ℝ)..x, Real.exp (-t ^ 2)

lemma erf_zero : erf 0 = 0 := by
  simp [erf]

lemma erf_neg (x : ℝ) : erf (-x) = - erf x := by
  unfold erf
  have h : (∫ t in (0:ℝ)..(-x), Real.exp (-t ^ 2))
      = ∫ t in (x:ℝ)..0, Real.exp (-t ^ 2) := by
    have := intervalIntegral.integral_comp_neg (a := (0:ℝ)) (b := -x)
      (f := fun t => Real.exp (-t ^ 2))
    simpa [neg_neg] using this
  rw [h, intervalIntegral.integral_symm]
  ring

lemma gauss_indef_nonneg {x : ℝ} (hx : 0 ≤ x) :
    0 ≤ ∫ t in (0:ℝ)..x, Real.exp (-t ^ 2) := by
  apply intervalIntegral.integral_nonneg hx
  intro t _
  exact (Real.exp_pos _).le

lemma gauss_indef_le {x : ℝ} (hx : 0 ≤ x) :
    (∫ t in (0:ℝ)..x, Real.exp (-t ^ 2)) ≤ Real.sqrt Real.pi / 2 := by
  have hint : IntegrableOn (fun t : ℝ => Real.exp (-t ^ 2)) (Set.Ioi 0) := by
    have := (integrable_exp_neg_mul_sq (b := 1) one_pos).integrableOn
      (s := Set.Ioi (0:ℝ))
    simpa [neg_mul, one_mul] using this
  have hmono : (∫ t in Set.Ioc (0:ℝ) x, Real.exp (-t ^ 2))
      ≤ ∫ t in Set.Ioi (0:ℝ), Real.exp (-t ^ 2) := by
    apply setIntegral_mono_set hint
    · filter_upwards with t using (Real.exp_pos _).le
    · filter_upwards with t using fun ht => ht.1
  have hIoi : (∫ t in Set.Ioi (0:ℝ), Real.exp (-t ^ 2))
      = Real.sqrt Real.pi / 2 := by
    have := integral_gaussian_Ioi 1
    simpa [neg_mul, one_mul] using this
  rw [intervalIntegral.integral_of_le hx]
  calc (∫ t in Set.Ioc (0:ℝ) x, Real.exp (-t ^ 2))
      ≤ ∫ t in Set.Ioi (0:ℝ), Real.exp (-t ^ 2) := hmono
    _ = Real.sqrt Real.pi / 2 := hIoi

lemma erf_nonneg_of_nonneg {x : ℝ} (hx : 0 ≤ x) : 0 ≤ erf x := by
  have h0 : 0 < Real.sqrt Real.pi := Real.sqrt_pos.mpr Real.pi_pos
  have := gauss_indef_nonneg hx
  have h2 : 0 ≤ 2 / Real.sqrt Real.pi := by positivity
  exact mul_nonneg h2 this

lemma erf_le_one_of_nonneg {x : ℝ} (hx : 0 ≤ x) : erf x ≤ 1 := by
  have h0 : 0 < Real.sqrt Real.pi := Real.sqrt_pos.mpr Real.pi_pos
  have hle := gauss_indef_le hx
  have h2 : 0 < 2 / Real.sqrt Real.pi := by positivity
  have : (2 / Real.sqrt Real.pi) * (∫ t in (0:ℝ)..x, Real.exp (-t ^ 2))
      ≤ (2 / Real.sqrt Real.pi) * (Real.sqrt Real.pi / 2) :=
    mul_le_mul_of_nonneg_left hle h2.le
  have hcancel : (2 / Real.sqrt Real.pi) * (Real.sqrt Real.pi / 2) = 1 := by
    field_simp
  calc erf x ≤ (2 / Real.sqrt Real.pi) * (Real.sqrt Real.pi / 2) := this
    _ = 1 := hcancel

lemma neg_one_le_erf (x : ℝ) : -1 ≤ erf x := by
  rcases le_or_lt 0 x with hx | hx
  · have := erf_nonneg_of_nonneg hx
    linarith
  · have hx' : 0 ≤ -x := by linarith
    have h := erf_le_one_of_nonneg hx'
    have := erf_neg x
    nlinarith [erf_neg (-x)]

lemma erf_le_one (x : ℝ) : erf x ≤ 1 := by
  rcases le_or_lt 0 x with hx | hx
  · exact erf_le_one_of_nonneg hx
  · have hx' : 0 ≤ -x := by linarith
    have h := erf_nonneg_of_nonneg hx'
    have hneg := erf_neg x
    nlinarith [erf_neg (-x)]

/-- The function `inv_probit` of `gpjax/likelihoods.py`:
`jitter = 1e-3; return 0.5 * (1.0 + erf(x / sqrt(2.0))) * (1 - 2 * jitter) + jitter`. -/
noncomputable def inv_probit (x : ℝ) : ℝ :=
  let jitter : ℝ := 1e-3
  0.5 * (1.0 + erf (x / Real.sqrt 2.0)) * (1 - 2 * jitter) + jitter

/-- A `tfd.Normal(loc=f, scale=s)` batch, as built by `Gaussian.link_function`. -/
structure NormalDist (n : ℕ) where
  loc : Fin n → ℝ
  scale : ℝ

/-- A `tfd.MultivariateNormalFullCovariance(mean, cov)`, as built by `Gaussian.predict`. -/
structure MvNormalFullCov (n : ℕ) where
  mean : Fin n → ℝ
  cov : Matrix (Fin n) (Fin n) ℝ

/-- A `tfd.Bernoulli(probs=p)` batch, as built by `Bernoulli.link_function`. -/
structure BernoulliDist (n : ℕ) where
  probs : Fin n → ℝ

/-- A `tfd.Poisson(rate=r)` batch, as built by `Poisson.link_function`. -/
structure PoissonDist (n : ℕ) where
  rate : Fin n → ℝ

/-- The latent Gaussian posterior passed to `predict`
(`gpjax.distributions.GaussianDistribution` or `tfd.MultivariateNormalTriL`):
what the module reads from it is `mean()`, `covariance()` and the event
dimensionality `n`. -/
structure GaussianPosterior (n : ℕ) where
  mean : Fin n → ℝ
  cov : Matrix (Fin n) (Fin n) ℝ

/-- The two integrator strategies imported from `gpjax.integrators`:
`AnalyticalGaussianIntegrator` and `GHQuadratureIntegrator`. -/
inductive Integrator where
  | analyticalGaussian : Integrator
  | ghQuadrature : Integrator
deriving DecidableEq

/-- The error LikelihoodError raised by the abstract methods of
`AbstractLikelihood` (Python `NotImplementedError`). -/
inductive LikelihoodError where
  | notImplementedError : LikelihoodError
deriving DecidableEq

/-- Source: `AbstractLikelihood.predict` — `raise NotImplementedError` for
every argument. -/
def AbstractLikelihood.predict {α β : Type} (_args : α) :
    Except LikelihoodError β :=
  Except.error LikelihoodError.notImplementedError

/-- Source: `AbstractLikelihood.link_function` — `raise NotImplementedError`
for every argument. -/
def AbstractLikelihood.link_function {α β : Type} (_f : α) :
    Except LikelihoodError β :=
  Except.error LikelihoodError.notImplementedError

section IntegratorModel

-- A per-datapoint quadrature rule: given the log-density functional and one
-- datapoint's `y`, `mean`, `variance`, produce the quadrature approximation of
-- the Gaussian expectation.  The concrete Gauss–Hermite nodes and weights live
-- in `gpjax.integrators`, outside this module, so the rule is a parameter of
-- the development.
variable (ghRule : (ℝ → ℝ → ℝ) → ℝ → ℝ → ℝ → ℝ)

/-- Modelled from the spec: the integrator contract of `gpjax.integrators`
(not part of this module).  An integrator is called with the log-density
functional, observed values, the Gaussian marginals' means and variances, and
the likelihood instance (of which it reads at most the observation standard
deviation, present only on the Gaussian variant), and returns one expectation
per datapoint.  `AnalyticalGaussianIntegrator` is valid only for the Gaussian
likelihood: it computes the closed-form Gaussian cross-entropy
`-0.5*log(2*pi) - log sigma - ((y - mean)^2 + variance) / (2*sigma^2)`
elementwise from the likelihood's observation stddev; on a likelihood without
one there is no valid result, modelled as `none`.  `GHQuadratureIntegrator`
applies the quadrature rule to each datapoint independently. -/
noncomputable def Integrator.run {n : ℕ} (integrator : Integrator)
    (g : ℝ → ℝ → ℝ) (y mean variance : Fin n → ℝ) (obs_stddev : Option ℝ) :
    Option (Fin n → ℝ) :=
  match integrator with
  | Integrator.analyticalGaussian =>
      obs_stddev.map fun σ => fun i =>
        -0.5 * Real.log (2 * Real.pi) - Real.log σ
          - ((y i - mean i) ^ 2 + variance i) / (2 * σ ^ 2)
  | Integrator.ghQuadrature =>
      some fun i => ghRule g (y i) (mean i) (variance i)

end IntegratorModel

/-- The class `Gaussian(AbstractLikelihood)`: fields set by its `__init__`.
The `PositiveReal`/`Static` wrapping of `obs_stddev` is an external
parameter-constraint collaborator; the numeric value is carried here. -/
structure Gaussian where
  num_datapoints : ℕ
  obs_stddev : ℝ
  integrator : Integrator

/-- Source: `Gaussian.__init__(num_datapoints, obs_stddev=1.0,
integrator=AnalyticalGaussianIntegrator())`. -/
def Gaussian.init (num_datapoints : ℕ) (obs_stddev : ℝ := 1.0)
    (integrator : Integrator := Integrator.analyticalGaussian) : Gaussian :=
  { num_datapoints := num_datapoints, obs_stddev := obs_stddev,
    integrator := integrator }

/-- The class `Bernoulli(AbstractLikelihood)`: fields set by the inherited
`AbstractLikelihood.__init__`. -/
structure Bernoulli where
  num_datapoints : ℕ
  integrator : Integrator

/-- Source: the inherited `AbstractLikelihood.__init__(num_datapoints,
integrator=GHQuadratureIntegrator())`, the constructor Bernoulli uses. -/
def Bernoulli.init (num_datapoints : ℕ)
    (integrator : Integrator := Integrator.ghQuadrature) : Bernoulli :=
  { num_datapoints := num_datapoints, integrator := integrator }

/-- The class `Poisson(AbstractLikelihood)`: fields set by the inherited
`AbstractLikelihood.__init__`. -/
structure Poisson where
  num_datapoints : ℕ
  integrator : Integrator

/-- Source: the inherited `AbstractLikelihood.__init__(num_datapoints,
integrator=GHQuadratureIntegrator())`, the constructor Poisson uses. -/
def Poisson.init (num_datapoints : ℕ)
    (integrator : Integrator := Integrator.ghQuadrature) : Poisson :=
  { num_datapoints := num_datapoints, integrator := integrator }

/-- The scalar log-density `tfd.Normal(loc=f, scale=sigma).log_prob(y)`, the
functional `lambda f, y: self.link_function(f).log_prob(y)` builds for the
Gaussian likelihood. -/
noncomputable def Gaussian.logProbFun (σ : ℝ) (f y : ℝ) : ℝ :=
  -0.5 * Real.log (2 * Real.pi) - Real.log σ - (y - f) ^ 2 / (2 * σ ^ 2)

/-- The scalar log-density `tfd.Bernoulli(probs=inv_probit(f)).log_prob(y)`,
the functional built for the Bernoulli likelihood. -/
noncomputable def Bernoulli.logProbFun (f y : ℝ) : ℝ :=
  y * Real.log (inv_probit f) + (1 - y) * Real.log (1 - inv_probit f)

/-- The scalar log-density `tfd.Poisson(rate=exp(f)).log_prob(y)`, the
functional built for the Poisson likelihood. -/
noncomputable def Poisson.logProbFun (f y : ℝ) : ℝ :=
  y * f - Real.exp f - Real.log (Real.Gamma (y + 1))

/-- Source: `Gaussian.link_function(f)` returns
`tfd.Normal(loc=f, scale=self.obs_stddev.value.astype(f.dtype))`. -/
def Gaussian.link_function (l : Gaussian) {n : ℕ} (f : Fin n → ℝ) :
    NormalDist n :=
  { loc := f, scale := l.obs_stddev }

/-- Source: `Gaussian.predict(dist)` reads `n_data = dist.event_shape[0]` and
`cov = dist.covariance()`, forms
`noisy_cov = cov.at[jnp.diag_indices(n_data)].add(self.obs_stddev.value**2)`
and returns `tfd.MultivariateNormalFullCovariance(dist.mean(), noisy_cov)`. -/
noncomputable def Gaussian.predict (l : Gaussian) {n : ℕ}
    (dist : GaussianPosterior n) : MvNormalFullCov n :=
  { mean := dist.mean,
    cov := fun i j =>
      if i = j then dist.cov i j + l.obs_stddev ^ 2 else dist.cov i j }

/-- Source: `Bernoulli.link_function(f)` returns
`tfd.Bernoulli(probs=inv_probit(f))`. -/
noncomputable def Bernoulli.link_function (l : Bernoulli) {n : ℕ}
    (f : Fin n → ℝ) : BernoulliDist n :=
  { probs := fun i => inv_probit (f i) }

/-- Source: `Bernoulli.predict(dist)` computes
`variance = jnp.diag(dist.covariance())`, `mean = dist.mean().ravel()` and
returns `self.link_function(mean / jnp.sqrt(1.0 + variance))`. -/
noncomputable def Bernoulli.predict (l : Bernoulli) {n : ℕ}
    (dist : GaussianPosterior n) : BernoulliDist n :=
  l.link_function fun i => dist.mean i / Real.sqrt (1.0 + dist.cov i i)

/-- Source: `Poisson.link_function(f)` returns `tfd.Poisson(rate=jnp.exp(f))`. -/
noncomputable def Poisson.link_function (l : Poisson) {n : ℕ}
    (f : Fin n → ℝ) : PoissonDist n :=
  { rate := fun i => Real.exp (f i) }

/-- Source: `Poisson.predict(dist)` returns `self.link_function(dist.mean())`. -/
noncomputable def Poisson.predict (l : Poisson) {n : ℕ}
    (dist : GaussianPosterior n) : PoissonDist n :=
  l.link_function dist.mean

/-- Source: `AbstractLikelihood.__call__(*args, **kwargs)` returns
`self.predict(*args, **kwargs)`; here resolved at the Gaussian variant. -/
noncomputable def Gaussian.call (l : Gaussian) {n : ℕ}
    (dist : GaussianPosterior n) : MvNormalFullCov n :=
  l.predict dist

/-- Source: `AbstractLikelihood.__call__(*args, **kwargs)` returns
`self.predict(*args, **kwargs)`; here resolved at the Bernoulli variant. -/
noncomputable def Bernoulli.call (l : Bernoulli) {n : ℕ}
    (dist : GaussianPosterior n) : BernoulliDist n :=
  l.predict dist

/-- Source: `AbstractLikelihood.__call__(*args, **kwargs)` returns
`self.predict(*args, **kwargs)`; here resolved at the Poisson variant. -/
noncomputable def Poisson.call (l : Poisson) {n : ℕ}
    (dist : GaussianPosterior n) : PoissonDist n :=
  l.predict dist

section ExpectedLogLikelihood

variable (ghRule : (ℝ → ℝ → ℝ) → ℝ → ℝ → ℝ → ℝ)

/-- Source: `AbstractLikelihood.expected_log_likelihood(y, mean, variance)`
builds `log_prob = vmap(lambda f, y: self.link_function(f).log_prob(y))` and
returns `self.integrator(fun=log_prob, y=y, mean=mean, variance=variance,
likelihood=self)`; here resolved at the Gaussian variant, whose log-density
functional is `Gaussian.logProbFun` and which carries an `obs_stddev`. -/
noncomputable def Gaussian.expected_log_likelihood (l : Gaussian) {n : ℕ}
    (y mean variance : Fin n → ℝ) : Option (Fin n → ℝ) :=
  l.integrator.run ghRule (Gaussian.logProbFun l.obs_stddev) y mean variance
    (some l.obs_stddev)

/-- Source: `AbstractLikelihood.expected_log_likelihood` resolved at the
Bernoulli variant, which has no `obs_stddev` attribute. -/
noncomputable def Bernoulli.expected_log_likelihood (l : Bernoulli) {n : ℕ}
    (y mean variance : Fin n → ℝ) : Option (Fin n → ℝ) :=
  l.integrator.run ghRule Bernoulli.logProbFun y mean variance none

/-- Source: `AbstractLikelihood.expected_log_likelihood` resolved at the
Poisson variant, which has no `obs_stddev` attribute. -/
noncomputable def Poisson.expected_log_likelihood (l : Poisson) {n : ℕ}
    (y mean variance : Fin n → ℝ) : Option (Fin n → ℝ) :=
  l.integrator.run ghRule Poisson.logProbFun y mean variance none

end ExpectedLogLikelihood

/-- Claim C3: for every real x, `inv_probit x` equals
`0.5 * (1 + erf (x / sqrt 2)) * (1 - 2 * 1e-3) + 1e-3` exactly, its value lies
in the closed interval `[1e-3, 1 - 1e-3]`, and `inv_probit 0 = 0.5`. -/
theorem inv_probit_spec :
    (∀ x : ℝ, inv_probit x
        = 0.5 * (1 + erf (x / Real.sqrt 2)) * (1 - 2 * 1e-3) + 1e-3)
    ∧ (∀ x : ℝ, 1e-3 ≤ inv_probit x ∧ inv_probit x ≤ 1 - 1e-3)
    ∧ inv_probit 0 = 0.5 := by
  refine ⟨fun x => by norm_num [inv_probit], fun x => ?_, ?_⟩
  · have h1 := neg_one_le_erf (x / Real.sqrt 2.0)
    have h2 := erf_le_one (x / Real.sqrt 2.0)
    unfold inv_probit
    norm_num
    constructor <;> nlinarith
  · unfold inv_probit
    norm_num [erf_zero]

/-- Claim C6: for every latent value f, `Poisson.link_function f` is a Poisson
distribution whose rate equals `exp f`, and this rate is strictly positive. -/
theorem poisson_link_function_rate (l : Poisson) {n : ℕ} (f : Fin n → ℝ)
    (i : Fin n) :
    (l.link_function f).rate i = Real.exp (f i)
    ∧ 0 < (l.link_function f).rate i :=
  ⟨rfl, Real.exp_pos _⟩

/-- Claim C5: `Poisson.predict` returns exactly `link_function` evaluated at
the posterior mean (a Poisson with rate `exp (mean)`); the posterior
covariance has no influence on the returned distribution. -/
theorem poisson_predict_spec (l : Poisson) {n : ℕ}
    (d d2 : GaussianPosterior n) :
    l.predict d = l.link_function d.mean
    ∧ (∀ i, (l.predict d).rate i = Real.exp (d.mean i))
    ∧ (d.mean = d2.mean → l.predict d = l.predict d2) := by
  refine ⟨rfl, fun i => rfl, fun hmean => ?_⟩
  unfold Poisson.predict
  rw [hmean]

/-- Witness for C5: two one-point posteriors with equal means and different
covariances predict identically. -/
theorem poisson_predict_spec_witness :
    (Poisson.init 1).predict (⟨![1], Matrix.of ![![2]]⟩ : GaussianPosterior 1)
      = (Poisson.init 1).predict
          (⟨![1], Matrix.of ![![5]]⟩ : GaussianPosterior 1) :=
  (poisson_predict_spec (Poisson.init 1)
    (⟨![1], Matrix.of ![![2]]⟩ : GaussianPosterior 1)
    (⟨![1], Matrix.of ![![5]]⟩ : GaussianPosterior 1)).2.2 rfl

/-- Claim C2: for every Gaussian likelihood with positive observation stddev
and every latent Gaussian posterior, `Gaussian.predict` keeps the mean
unchanged and returns covariance `C + sigma^2 * I`: each diagonal entry grows
by exactly `sigma^2` and every off-diagonal entry is unchanged. -/
theorem gaussian_predict_spec (l : Gaussian) (hσ : 0 < l.obs_stddev) {n : ℕ}
    (d : GaussianPosterior n) :
    (l.predict d).mean = d.mean
    ∧ (∀ i, (l.predict d).cov i i = d.cov i i + l.obs_stddev ^ 2)
    ∧ (∀ i j, i ≠ j → (l.predict d).cov i j = d.cov i j)
    ∧ (l.predict d).cov
        = d.cov + l.obs_stddev ^ 2 • (1 : Matrix (Fin n) (Fin n) ℝ) := by
  refine ⟨rfl, fun i => if_pos rfl, fun i j hij => if_neg hij, ?_⟩
  funext i j
  by_cases hij : i = j
  · subst hij
    simp [Gaussian.predict, Matrix.one_apply, Matrix.add_apply]
  · simp [Gaussian.predict, Matrix.one_apply, Matrix.add_apply, hij]

/-- Witness for C2 at sigma = 1, a one-point posterior. -/
theorem gaussian_predict_spec_witness :
    (0:ℝ) < (Gaussian.init 1 1).obs_stddev
    ∧ ((Gaussian.init 1 1).predict
        (⟨![0], Matrix.of ![![3]]⟩ : GaussianPosterior 1)).mean = ![0] :=
  ⟨by norm_num [Gaussian.init],
    (gaussian_predict_spec (Gaussian.init 1 1) (by norm_num [Gaussian.init])
      (⟨![0], Matrix.of ![![3]]⟩ : GaussianPosterior 1)).1⟩

/-- Claim C4: `Bernoulli.predict` returns
`link_function (mean / sqrt (1 + diag cov))`, a Bernoulli whose success
probability is `inv_probit` of that ratio, and it depends only on the
posterior mean and the diagonal of the covariance. -/
theorem bernoulli_predict_spec (l : Bernoulli) {n : ℕ}
    (d d2 : GaussianPosterior n) :
    l.predict d
      = l.link_function (fun i => d.mean i / Real.sqrt (1 + d.cov i i))
    ∧ (∀ i, (l.predict d).probs i
        = inv_probit (d.mean i / Real.sqrt (1 + d.cov i i)))
    ∧ (d.mean = d2.mean → (∀ i, d.cov i i = d2.cov i i) →
        l.predict d = l.predict d2) := by
  have hb : ∀ i, (1.0 : ℝ) + d.cov i i = 1 + d.cov i i := fun i => by norm_num
  refine ⟨?_, fun i => ?_, fun hmean hdiag => ?_⟩
  · unfold Bernoulli.predict
    congr 1
    funext i
    rw [hb i]
  · show inv_probit (d.mean i / Real.sqrt (1.0 + d.cov i i)) = _
    rw [hb i]
  · unfold Bernoulli.predict Bernoulli.link_function
    simp only [hmean, hdiag]

/-- Witness for C4: two 2-point posteriors agreeing in mean and covariance
diagonal but with different off-diagonal covariances predict identically. -/
theorem bernoulli_predict_spec_witness :
    ((⟨![0, 1], Matrix.of ![![1, 5], ![5, 2]]⟩ : GaussianPosterior 2).mean
        = (⟨![0, 1], Matrix.of ![![1, 0], ![0, 2]]⟩ : GaussianPosterior 2).mean)
    ∧ (Bernoulli.init 2).predict
        (⟨![0, 1], Matrix.of ![![1, 5], ![5, 2]]⟩ : GaussianPosterior 2)
      = (Bernoulli.init 2).predict
        (⟨![0, 1], Matrix.of ![![1, 0], ![0, 2]]⟩ : GaussianPosterior 2) :=
  ⟨rfl,
    (bernoulli_predict_spec (Bernoulli.init 2)
      (⟨![0, 1], Matrix.of ![![1, 5], ![5, 2]]⟩ : GaussianPosterior 2)
      (⟨![0, 1], Matrix.of ![![1, 0], ![0, 2]]⟩ : GaussianPosterior 2)).2.2
      rfl (by intro i; fin_cases i <;> norm_num)⟩

/-- Claim C1: for a Gaussian likelihood constructed with its default
(analytical) integrator and observation stddev sigma, the expected log
likelihood is elementwise the closed-form Gaussian cross-entropy
`-0.5*log(2*pi) - log sigma - ((y - mean)^2 + variance) / (2*sigma^2)`;
in particular at `y = [1]`, `mean = [0]`, `variance = [1]`, `sigma = 1` it
equals `-0.5*log(2*pi) - 1`. -/
theorem gaussian_ell_closed_form (gh : (ℝ → ℝ → ℝ) → ℝ → ℝ → ℝ → ℝ)
    (ndp : ℕ) (σ : ℝ) (hσ : 0 < σ) {n : ℕ} (y mean variance : Fin n → ℝ) :
    (Gaussian.init ndp σ).expected_log_likelihood gh y mean variance
      = some (fun i => -0.5 * Real.log (2 * Real.pi) - Real.log σ
          - ((y i - mean i) ^ 2 + variance i) / (2 * σ ^ 2))
    ∧ ∃ r, (Gaussian.init 1 1).expected_log_likelihood gh ![1] ![0] ![1]
          = some r
        ∧ r 0 = -0.5 * Real.log (2 * Real.pi) - 1 := by
  refine ⟨rfl, fun i => -0.5 * Real.log (2 * Real.pi) - Real.log 1
      - ((![1] i - ![0] i) ^ 2 + ![1] i) / (2 * 1 ^ 2), rfl, ?_⟩
  norm_num [Real.log_one]

/-- Witness for C1 at sigma = 1 and a concrete quadrature rule. -/
theorem gaussian_ell_closed_form_witness :
    (0:ℝ) < 1
    ∧ (Gaussian.init 1 (1:ℝ)).expected_log_likelihood
        (fun g a b _ => g b a) ![1] ![0] ![1]
      = some (fun i => -0.5 * Real.log (2 * Real.pi) - Real.log 1
          - ((![1] i - ![0] i) ^ 2 + ![1] i) / (2 * 1 ^ 2)) :=
  ⟨by norm_num,
    (gaussian_ell_closed_form (fun g a b _ => g b a) 1 1 (by norm_num)
      ![1] ![0] ![1]).1⟩

/-- Claim C7: a Gaussian likelihood constructed without an explicit
integrator holds the analytical integrator; Bernoulli and Poisson hold the
Gauss–Hermite quadrature integrator; `expected_log_likelihood` always
delegates to whichever integrator the instance holds. -/
theorem default_integrator_policy (gh : (ℝ → ℝ → ℝ) → ℝ → ℝ → ℝ → ℝ)
    (ndp : ℕ) (σ : ℝ) :
    (Gaussian.init ndp σ).integrator = Integrator.analyticalGaussian
    ∧ (Bernoulli.init ndp).integrator = Integrator.ghQuadrature
    ∧ (Poisson.init ndp).integrator = Integrator.ghQuadrature
    ∧ (∀ (l : Gaussian) {n : ℕ} (y m v : Fin n → ℝ),
        l.expected_log_likelihood gh y m v
          = l.integrator.run gh (Gaussian.logProbFun l.obs_stddev) y m v
              (some l.obs_stddev))
    ∧ (∀ (l : Bernoulli) {n : ℕ} (y m v : Fin n → ℝ),
        l.expected_log_likelihood gh y m v
          = l.integrator.run gh Bernoulli.logProbFun y m v none)
    ∧ (∀ (l : Poisson) {n : ℕ} (y m v : Fin n → ℝ),
        l.expected_log_likelihood gh y m v
          = l.integrator.run gh Poisson.logProbFun y m v none) :=
  ⟨rfl, rfl, rfl, by intros; rfl, by intros; rfl, by intros; rfl⟩

/-- Claim C8: `expected_log_likelihood` has no cross-datapoint coupling: for
every variant and whatever integrator the instance holds, the i-th entry of
the result depends only on the i-th entries of `y`, `mean` and `variance`. -/
theorem ell_per_datapoint (gh : (ℝ → ℝ → ℝ) → ℝ → ℝ → ℝ → ℝ) {n : ℕ}
    (i : Fin n) (y y2 m m2 v v2 : Fin n → ℝ)
    (hy : y i = y2 i) (hm : m i = m2 i) (hv : v i = v2 i) :
    (∀ l : Gaussian,
      Option.map (fun r => r i) (l.expected_log_likelihood gh y m v)
        = Option.map (fun r => r i) (l.expected_log_likelihood gh y2 m2 v2))
    ∧ (∀ l : Bernoulli,
      Option.map (fun r => r i) (l.expected_log_likelihood gh y m v)
        = Option.map (fun r => r i) (l.expected_log_likelihood gh y2 m2 v2))
    ∧ (∀ l : Poisson,
      Option.map (fun r => r i) (l.expected_log_likelihood gh y m v)
        = Option.map (fun r => r i) (l.expected_log_likelihood gh y2 m2 v2)) := by
  refine ⟨fun l => ?_, fun l => ?_, fun l => ?_⟩
  · cases h : l.integrator <;>
      simp [Gaussian.expected_log_likelihood, Integrator.run, h, hy, hm, hv]
  · cases h : l.integrator <;>
      simp [Bernoulli.expected_log_likelihood, Integrator.run, h, hy, hm, hv]
  · cases h : l.integrator <;>
      simp [Poisson.expected_log_likelihood, Integrator.run, h, hy, hm, hv]

/-- Witness for C8: two 2-point batches agreeing only in datapoint 0 give the
same entry 0 of the Gaussian expected log likelihood. -/
theorem ell_per_datapoint_witness :
    ((![1, 5] : Fin 2 → ℝ) 0 = ![1, 7] 0)
    ∧ Option.map (fun r => r (0 : Fin 2))
        ((Gaussian.init 2 1).expected_log_likelihood (fun g a b _ => g b a)
          ![1, 5] ![0, 4] ![1, 6])
      = Option.map (fun r => r (0 : Fin 2))
        ((Gaussian.init 2 1).expected_log_likelihood (fun g a b _ => g b a)
          ![1, 7] ![0, 9] ![1, 8]) :=
  ⟨rfl,
    (ell_per_datapoint (fun g a b _ => g b a) (0 : Fin 2)
      ![1, 5] ![1, 7] ![0, 4] ![0, 9] ![1, 6] ![1, 8] rfl rfl rfl).1
      (Gaussian.init 2 1)⟩

/-- Claim C9: invoking `predict` or `link_function` on the abstract
likelihood contract signals the not-implemented error for every argument,
and never returns a distribution. -/
theorem abstract_methods_not_implemented {α β : Type} (args : α) :
    AbstractLikelihood.predict args
      = (Except.error LikelihoodError.notImplementedError :
          Except LikelihoodError β)
    ∧ AbstractLikelihood.link_function args
      = (Except.error LikelihoodError.notImplementedError :
          Except LikelihoodError β)
    ∧ (∀ d : β, AbstractLikelihood.predict args
        ≠ (Except.ok d : Except LikelihoodError β))
    ∧ (∀ d : β, AbstractLikelihood.link_function args
        ≠ (Except.ok d : Except LikelihoodError β)) :=
  ⟨rfl, rfl, fun _ h => Except.noConfusion h, fun _ h => Except.noConfusion h⟩

/-- Witness for C9 at a concrete argument type. -/
theorem abstract_methods_not_implemented_witness :
    AbstractLikelihood.predict (0 : ℕ)
      = (Except.error LikelihoodError.notImplementedError :
          Except LikelihoodError ℕ) :=
  (abstract_methods_not_implemented (β := ℕ) 0).1

/-- Claim C10: for each concrete variant, the call operator returns exactly
the same distribution as `predict` on the same arguments. -/
theorem call_eq_predict {n : ℕ} (d : GaussianPosterior n) :
    (∀ l : Gaussian, l.call d = l.predict d)
    ∧ (∀ l : Bernoulli, l.call d = l.predict d)
    ∧ (∀ l : Poisson, l.call d = l.predict d) :=
  ⟨fun _ => rfl, fun _ => rfl, fun _ => rfl⟩

end GPJax
